import Mathlib

/-!
Shallow embedding of the ESCC multi-stage genomic summary pipeline
(`excel_3CNV_analysis.py`, the per-stage variant, and
`overall_analysis_excel.py`, the overall variant).

Python strings are modelled by Lean `String` (a sequence of characters);
Python lists by Lean `List`; the pandas `DataFrame` by a column-oriented
table; `None` by `Option.none`.  File contents are modelled as the list of
the file's lines (without terminators); a missing/unreadable file is
`Option.none`.  Numeric segment-mean values are modelled by `ℚ` (the code
manipulates them only through order, sums and division, which the rational
numbers model exactly).
-/

namespace ESCC

/-- Python `str.lower()` (per-character lowering, which agrees with Python
on the ASCII column names this program compares against). -/
def pyLower (s : String) : String := String.mk (s.data.map Char.toLower)

/-- Python `s.startswith(pat)`. -/
def pyStartsWith (s pat : String) : Bool := pat.data.isPrefixOf s.data

/-- Split a character sequence at every occurrence of `sep` (Python
`s.split(sep)` for a single-character separator). -/
def splitOnChar (sep : Char) (s : List Char) : List (List Char) :=
  s.foldr
    (fun c acc =>
      match acc with
      | [] => [[c]]
      | a :: rest => if c = sep then [] :: a :: rest else (c :: a) :: rest)
    [[]]

/-- Python `s.split('\t')`, the field splitting `pd.read_csv(sep='\t')`
performs on each physical line. -/
def pySplitTab (s : String) : List String :=
  (splitOnChar (Char.ofNat 9) s.data).map String.mk

/-- Python `s[:n]` (the first `n` characters of `s`). -/
def pySlice (s : String) (n : Nat) : String := String.mk (s.data.take n)

/-- Helper for `strContains`: does `pat` occur as a contiguous run inside `s`? -/
def containsSub (s pat : List Char) : Bool :=
  match s with
  | [] => pat.isEmpty
  | _ :: cs => pat.isPrefixOf s || containsSub cs pat

/-- Python `pat in s` substring test. -/
def strContains (s pat : String) : Bool := containsSub s.data pat.data

/-- Python `s.endswith(pat)`. -/
def strEndsWith (s pat : String) : Bool := List.isSuffixOf pat.data s.data

/-- A parsed delimited file as pandas `read_csv` returns it, at the
granularity the pipeline observes: the header row (column names) and the
data rows (cells kept as raw strings). -/
structure RawTable where
  header : List String
  rows : List (List String)
deriving DecidableEq, Repr

/-- Model of `pd.read_csv(..., sep='\t')` applied to a list of physical
lines: blank lines are skipped (pandas default `skip_blank_lines=True`),
an input with no remaining lines raises `EmptyDataError`, otherwise the
first line is the header and the rest are tab-split data rows. -/
def pdReadCsvLines (lines : List String) : Except String RawTable :=
  match lines.filter (fun l => l ≠ "") with
  | [] => Except.error "EmptyDataError: no columns to parse from file"
  | header :: rest =>
      Except.ok { header := pySplitTab header,
                  rows := rest.map pySplitTab }

/-- The body of the `try:` block of `read_cnv_file`: open the file and
parse it as a tab-separated table.  A missing/unreadable file raises. -/
def read_cnv_body (content : Option (List String)) : Except String RawTable :=
  match content with
  | none => Except.error "FileNotFoundError"
  | some lines => pdReadCsvLines lines

/-- `read_cnv_file`: the `try/except` wrapper — any raised error is caught
and turned into `None`. -/
def read_cnv_file (content : Option (List String)) : Option RawTable :=
  match read_cnv_body content with
  | Except.ok df => some df
  | Except.error _ => none

/-- The list comprehension of `read_maf_file`:
`[line for line in f if not line.startswith('#')]`, written as the
recursion the iteration performs. -/
def mafKeptLines (lines : List String) : List String :=
  match lines with
  | [] => []
  | l :: ls => if pyStartsWith l "#" then mafKeptLines ls else l :: mafKeptLines ls

/-- The body of the `try:` block of `read_maf_file`: read the file's
lines, drop the `#`-comment lines, and parse the rest as a tab-separated
table.  (The source re-joins the kept lines, still carrying their
terminators, with `"\n"`; the extra blank physical lines this creates are
skipped again by the parser, so line-level filtering is the net effect.) -/
def read_maf_body (content : Option (List String)) : Except String RawTable :=
  match content with
  | none => Except.error "FileNotFoundError"
  | some lines => pdReadCsvLines (mafKeptLines lines)

/-- `read_maf_file`: the `try/except` wrapper — any raised error is caught
and turned into `None`. -/
def read_maf_file (content : Option (List String)) : Option RawTable :=
  match read_maf_body content with
  | Except.ok df => some df
  | Except.error _ => none

/-- The literal list `['segment_mean', 'segmentmean']`. -/
def segmentMeanNames : List String := ["segment_mean", "segmentmean"]

/-- `get_segment_mean_column`: scan the column names in order and return
the first one whose lowercasing is `segment_mean` or `segmentmean`. -/
def get_segment_mean_column (cols : List String) : Option String :=
  match cols with
  | [] => none
  | c :: cs => if pyLower c ∈ segmentMeanNames then some c else get_segment_mean_column cs

/-- A typed DataFrame as the stage processor and summarizer observe it:
named columns in order, each carrying its cell values.  The cell type is a
parameter: the segment-mean columns of CNV frames hold numbers, the
`Hugo_Symbol`/`Variant_Classification` columns of MAF frames hold
strings. -/
structure Table (α : Type) where
  columns : List (String × List α)
deriving DecidableEq, Repr

/-- `df.columns`: the column names in order. -/
def Table.cols {α : Type} (t : Table α) : List String := t.columns.map Prod.fst

/-- `df[name].tolist()`: the values of the first column called `name`
(an absent column yields `[]`; the pipeline only selects columns it has
resolved, or columns whose rows pandas would fill with dropped NaNs). -/
def Table.getCol {α : Type} (t : Table α) (name : String) : List α :=
  match t.columns.find? (fun c => c.1 = name) with
  | some c => c.2
  | none => []

/-- A directory entry of a sample folder: its file name and, when the
reader that `process_stage` applies to it succeeds, the parsed table
(`none` models a read failure: missing file, malformed text, …). -/
structure File (α : Type) where
  name : String
  parsed : Option (Table α)
deriving DecidableEq, Repr

/-- The literal `'Copy_Number_Variation'`. -/
def cnvTag : String := "Copy_Number_Variation"

/-- The literal `'Simple_Nucleotide_Variation'`. -/
def snvTag : String := "Simple_Nucleotide_Variation"

/-- The per-stage accumulator dict of `excel_3CNV_analysis.process_stage`:
`{'cnv_segment_means': [], 'snp_data': []}`. -/
structure StageData (ν τ : Type) where
  cnv_segment_means : List ν
  snp_data : List (Table τ)
deriving DecidableEq, Repr

/-- One iteration of the inner `for file in os.listdir(sample_path)` loop
of the per-stage variant's `process_stage`. -/
def processFile {α : Type} (st : StageData α α) (f : File α) : StageData α α :=
  if strContains f.name cnvTag then
    match f.parsed with
    | some cnv_df =>
        match get_segment_mean_column cnv_df.cols with
        | some segment_col =>
            { st with cnv_segment_means :=
                st.cnv_segment_means ++ cnv_df.getCol segment_col }
        | none => st
    | none => st
  else if strContains f.name snvTag || strEndsWith f.name ".maf" then
    match f.parsed with
    | some snp_df => { st with snp_data := st.snp_data ++ [snp_df] }
    | none => st
  else st

/-- The per-stage variant's `process_stage`: each element of `samples` is
the file listing of one sample subdirectory (non-directory entries of the
stage folder are skipped by the source before this point). -/
def process_stage {α : Type} (samples : List (List (File α))) : StageData α α :=
  samples.foldl (fun st files => files.foldl processFile st) { cnv_segment_means := [], snp_data := [] }

/-- The overall variant's accumulator dict together with the external
failed-files log (a list of tab-separated `(file path, reason)` records)
that `log_failed_file` appends to.  The two `defaultdict(list)` members
are modelled as association lists in key-insertion order. -/
structure OverallStageData (α : Type) where
  cnv_segment_means : List α
  snp_data : List (Table α)
  cnv_segment_means_by_sample : List (String × List α)
  snp_data_by_sample : List (String × List (Table α))
  failedLog : List (String × String)
deriving DecidableEq, Repr

/-- `defaultdict(list)` update `d[k].extend(vs)` / `d[k].append(v)`:
extend the entry of `k`, creating it when absent. -/
def updAssoc {β : Type} (m : List (String × List β)) (k : String) (vs : List β) :
    List (String × List β) :=
  match m with
  | [] => [(k, vs)]
  | (k₀, vs₀) :: rest =>
      if k₀ = k then (k₀, vs₀ ++ vs) :: rest else (k₀, vs₀) :: updAssoc rest k vs

/-- `log_failed_file(file_path, reason)`: append one tab-separated record
to the failed-files log. -/
def log_failed_file (log : List (String × String)) (file_path reason : String) :
    List (String × String) :=
  log ++ [(file_path, reason)]

/-- `os.path.flatten` for the relative paths this pipeline builds. -/
def pathJoin (a b : String) : String := a ++ "/" ++ b

/-- One iteration of the inner file loop of the overall variant's
`process_stage` (source lines 55–74), including the failed-file logging
of the missing-column branch. -/
def overallProcessFile {α : Type} (sample_path sample_folder : String)
    (st : OverallStageData α) (f : File α) : OverallStageData α :=
  let file_path := pathJoin sample_path f.name
  if strContains f.name cnvTag then
    match f.parsed with
    | some cnv_df =>
        match get_segment_mean_column cnv_df.cols with
        | some segment_col =>
            let segment_means := cnv_df.getCol segment_col
            { st with
                cnv_segment_means := st.cnv_segment_means ++ segment_means,
                cnv_segment_means_by_sample :=
                  updAssoc st.cnv_segment_means_by_sample sample_folder segment_means }
        | none =>
            { st with failedLog := log_failed_file st.failedLog file_path "Missing Segment Mean column" }
    | none => st
  else if strContains f.name snvTag || strEndsWith f.name ".maf" then
    match f.parsed with
    | some snp_df =>
        { st with
            snp_data := st.snp_data ++ [snp_df],
            snp_data_by_sample := updAssoc st.snp_data_by_sample sample_folder [snp_df] }
    | none => st
  else st

/-- The overall variant's `process_stage`: each sample is its directory
name paired with its file listing; the state threads the external failed
log through. -/
def overall_process_stage {α : Type} (stage_folder : String)
    (samples : List (String × List (File α))) (st₀ : OverallStageData α) :
    OverallStageData α :=
  samples.foldl
    (fun st sample =>
      sample.2.foldl (overallProcessFile (pathJoin stage_folder sample.1) sample.1) st)
    st₀

/-- The result of `pd.Series(values).describe()` on a numeric series.
The source reports the sample standard deviation; to stay in exact
arithmetic the model records its square, the sample variance (`none`
models the NaN pandas reports for fewer than two values). -/
structure DescribeStats where
  count : ℚ
  mean : ℚ
  sampleVariance : Option ℚ
  min : ℚ
  q25 : ℚ
  q50 : ℚ
  q75 : ℚ
  max : ℚ
deriving DecidableEq, Repr

/-- The linear-interpolation quantile pandas `describe` uses, on an
ascending-sorted list: index `h = q·(n−1)`, interpolating between the
cells at `⌊h⌋` and `⌊h⌋+1`. -/
def quantileSorted (s : List ℚ) (q : ℚ) : ℚ :=
  let h : ℚ := q * ((s.length : ℚ) - 1)
  let lo : ℕ := (Int.floor h).toNat
  let x := s.getD lo 0
  let y := s.getD (lo + 1) x
  x + (h - (lo : ℚ)) * (y - x)

/-- `pd.Series(xs).describe()`: count, mean, std (recorded as variance),
min, quartiles, max.  `none` on an empty series (the callers guard this
case away with a truthiness test). -/
def describeStats (xs : List ℚ) : Option DescribeStats :=
  match List.insertionSort (· ≤ ·) xs with
  | [] => none
  | m :: rest =>
      let s := m :: rest
      let n : ℕ := xs.length
      let mean : ℚ := xs.sum / (n : ℚ)
      some { count := (n : ℚ),
             mean := mean,
             sampleVariance :=
               if n < 2 then none
               else some ((xs.map (fun x => (x - mean) ^ 2)).sum / ((n : ℚ) - 1)),
             min := m,
             q25 := quantileSorted s (1/4),
             q50 := quantileSorted s (1/2),
             q75 := quantileSorted s (3/4),
             max := s.getLast (List.cons_ne_nil m rest) }

/-- Descending-by-count order on `(value, count)` pairs, the order
`value_counts()` returns its rows in. -/
def countGE (a b : String × ℕ) : Prop := b.2 ≤ a.2

instance : DecidableRel countGE := fun a b => inferInstanceAs (Decidable (b.2 ≤ a.2))

instance : IsTotal (String × ℕ) countGE := ⟨fun a b => le_total b.2 a.2⟩

instance : IsTrans (String × ℕ) countGE := ⟨fun _ _ _ h₁ h₂ => le_trans h₂ h₁⟩

/-- The distinct values of a series in first-appearance order. -/
def firstSeenKeys (keys : List String) : List String :=
  keys.foldl (fun acc k => if k ∈ acc then acc else acc ++ [k]) []

/-- `series.value_counts()`: one `(value, count)` row per distinct value,
sorted by descending count (the order among tied counts is not relied on
by the pipeline; the model uses a stable sort over first-appearance
order). -/
def valueCounts (keys : List String) : List (String × ℕ) :=
  List.insertionSort countGE ((firstSeenKeys keys).map (fun k => (k, keys.count k)))

/-- The literal column name `'Hugo_Symbol'`. -/
def hugoSymbol : String := "Hugo_Symbol"

/-- The literal column name `'Variant_Classification'`. -/
def variantClassification : String := "Variant_Classification"

/-- `pd.concat(tables)[name]` with NaN entries dropped, as
`value_counts()` then drops them: the concatenation of the `name` columns
of the tables that have one. -/
def combinedCol (tables : List (Table String)) (name : String) : List String :=
  (tables.map (fun t => t.getCol name)).flatten

/-- `combined['Hugo_Symbol'].value_counts().head(10)`. -/
def topGenesOf (tables : List (Table String)) : List (String × ℕ) :=
  (valueCounts (combinedCol tables hugoSymbol)).take 10

/-- The dict `create_stage_summary` returns: each key present exactly when
the corresponding accumulator is non-empty. -/
structure StageSummary where
  cnvStats : Option DescribeStats
  topGenes : Option (List (String × ℕ))
  mutationClassification : Option (List (String × ℕ))
deriving DecidableEq, Repr

/-- `create_stage_summary(stage, stage_data)` of the per-stage variant. -/
def create_stage_summary (sd : StageData ℚ String) : StageSummary :=
  { cnvStats :=
      if sd.cnv_segment_means.isEmpty then none else describeStats sd.cnv_segment_means,
    topGenes :=
      if sd.snp_data.isEmpty then none else some (topGenesOf sd.snp_data),
    mutationClassification :=
      if sd.snp_data.isEmpty then none
      else some (valueCounts (combinedCol sd.snp_data variantClassification)) }

/-- Sheet-title construction of `save_summaries_to_excel`: concatenate
stage and table name with `_`, then truncate to Excel's 31-character
limit as `title[:28] + '...'`. -/
def sheet_title (stage sheet_name : String) : String :=
  let t := stage ++ "_" ++ sheet_name
  if t.length > 31 then pySlice t 28 ++ "..." else t

/-- The sheet titles `save_summaries_to_excel` writes, given each stage's
summary sheet names. -/
def save_summaries_to_excel (stage_summaries : List (String × List String)) : List String :=
  stage_summaries.flatMap (fun s => s.2.map (sheet_title s.1))

/-- What one sheet of the overall workbook holds. -/
inductive SheetContent where
  | stats : Option DescribeStats → SheetContent
  | counts : List (String × ℕ) → SheetContent
deriving DecidableEq, Repr

/-- `save_summary_to_excel(cnv_segment_means, snp_data_by_sample)` of the
overall variant: the `(sheet name, contents)` pairs written, in order.
The CNV sheet is written only when the value list is truthy (non-empty);
the two mutation sheets only when the sample dict is truthy; a non-empty
dict whose tables flatten to nothing makes `pd.concat` raise
`ValueError`, modelled as the error branch. -/
def save_summary_to_excel (cnv_segment_means : List ℚ)
    (snp_data_by_sample : List (String × List (Table String))) :
    Except String (List (String × SheetContent)) :=
  let cnvSheets : List (String × SheetContent) :=
    if cnv_segment_means.isEmpty then []
    else [("CNV_Segment_Stats", SheetContent.stats (describeStats cnv_segment_means))]
  if snp_data_by_sample.isEmpty then Except.ok cnvSheets
  else
    let dfs := (snp_data_by_sample.map Prod.snd).flatten
    if dfs.isEmpty then Except.error "ValueError: No objects to concatenate"
    else
      Except.ok (cnvSheets ++
        [("Top_Mutated_Genes", SheetContent.counts (topGenesOf dfs)),
         ("Mutation_Classification",
          SheetContent.counts (valueCounts (combinedCol dfs variantClassification)))])

/-- The per-file contribution to the stage-wide segment-mean accumulator:
`some` of the resolved column's values for a successfully read CNV file
with a resolved segment-mean column, `none` otherwise. -/
def fileSegMeansOpt {α : Type} (f : File α) : Option (List α) :=
  if strContains f.name cnvTag then
    match f.parsed with
    | some df =>
        match get_segment_mean_column df.cols with
        | some col => some (df.getCol col)
        | none => none
    | none => none
  else none

/-- The values a file actually appends to the accumulator (empty for a
non-contributing file). -/
def fileSegMeans {α : Type} (f : File α) : List α := (fileSegMeansOpt f).getD []

/-- Concrete CNV file used to instantiate the order-independence claim. -/
def c4FileA : File ℕ :=
  { name := "TCGA_Copy_Number_Variation.segA.txt",
    parsed := some { columns := [("Segment_Mean", [1, 2])] } }

/-- Second concrete CNV file for the order-independence claim. -/
def c4FileB : File ℕ :=
  { name := "TCGA_Copy_Number_Variation.segB.txt",
    parsed := some { columns := [("SegmentMean", [3])] } }

/-- Concrete mutation table realizing gene counts TP53:5, KRAS:3, EGFR:3. -/
def c8ExampleTable : Table String :=
  { columns := [("Hugo_Symbol",
      ["TP53", "TP53", "TP53", "TP53", "TP53", "KRAS", "KRAS", "KRAS",
       "EGFR", "EGFR", "EGFR"])] }

/-- Concrete stage data with one mutation table and no CNV values. -/
def c8SampleStage : StageData ℚ String :=
  { cnv_segment_means := [], snp_data := [c8ExampleTable] }

/-- Concrete single-row mutation table for the overall exporter. -/
def c1ExampleTable : Table String :=
  { columns := [("Hugo_Symbol", ["TP53"]),
                ("Variant_Classification", ["Missense_Mutation"])] }

/-- Concrete CNV-named file whose table has no segment-mean column. -/
def c6File : File ℕ :=
  { name := "sample_Copy_Number_Variation.txt",
    parsed := some { columns := [("Chromosome", [1, 7])] } }

/-- Concrete empty overall accumulator state. -/
def c6StateO : OverallStageData ℕ :=
  { cnv_segment_means := [], snp_data := [], cnv_segment_means_by_sample := [],
    snp_data_by_sample := [], failedLog := [] }

/-- Concrete per-stage accumulator state. -/
def c6StateP : StageData ℕ ℕ :=
  { cnv_segment_means := [3], snp_data := [] }

/-- Concrete file whose name carries the CNV tag, the SNV tag and the
`.maf` suffix at once. -/
def c10File : File ℕ :=
  { name := "x_Copy_Number_Variation_Simple_Nucleotide_Variation.maf",
    parsed := none }

end ESCC

namespace ESCC

/-- Evaluation of the lowering of the first literal column name. -/
theorem pyLower_sm : pyLower "segment_mean" = "segment_mean" := by decide

/-- Evaluation of the lowering of the second literal column name. -/
theorem pyLower_smn : pyLower "segmentmean" = "segmentmean" := by decide

/-- One file step of the per-stage processor changes the stage-wide
segment-mean accumulator by exactly the file's contribution. -/
theorem processFile_cnv {α : Type} (st : StageData α α) (f : File α) :
    (processFile st f).cnv_segment_means = st.cnv_segment_means ++ fileSegMeans f := by
  unfold processFile fileSegMeans fileSegMeansOpt
  by_cases h : strContains f.name cnvTag = true
  · simp only [h, if_true]
    cases f.parsed with
    | none => simp
    | some df => cases hcol : get_segment_mean_column df.cols <;> simp [hcol]
  · simp only [h, if_false]
    by_cases h2 : (strContains f.name snvTag || strEndsWith f.name ".maf") = true
    · simp only [h2, if_true]
      cases f.parsed <;> simp
    · simp [h2]

/-- One file step of the overall processor changes the stage-wide
segment-mean accumulator by exactly the file's contribution. -/
theorem overallProcessFile_cnv {α : Type} (sp sf : String)
    (st : OverallStageData α) (f : File α) :
    (overallProcessFile sp sf st f).cnv_segment_means
      = st.cnv_segment_means ++ fileSegMeans f := by
  unfold overallProcessFile fileSegMeans fileSegMeansOpt
  by_cases h : strContains f.name cnvTag = true
  · simp only [h, if_true]
    cases f.parsed with
    | none => simp
    | some df => cases hcol : get_segment_mean_column df.cols <;> simp [hcol]
  · simp only [h, if_false]
    by_cases h2 : (strContains f.name snvTag || strEndsWith f.name ".maf") = true
    · simp only [h2, if_true]
      cases f.parsed <;> simp
    · simp [h2]

/-- Folding the per-stage file step over one sample's listing appends the
per-file contributions in order. -/
theorem foldl_processFile_cnv {α : Type} (files : List (File α)) (st : StageData α α) :
    (files.foldl processFile st).cnv_segment_means
      = st.cnv_segment_means ++ (files.map fileSegMeans).flatten := by
  induction files generalizing st with
  | nil => simp
  | cons f fs ih => simp [ih, processFile_cnv, List.append_assoc]

/-- Folding the overall file step over one sample's listing appends the
per-file contributions in order. -/
theorem foldl_overallProcessFile_cnv {α : Type} (sp sf : String)
    (files : List (File α)) (st : OverallStageData α) :
    ((files.foldl (overallProcessFile sp sf) st).cnv_segment_means)
      = st.cnv_segment_means ++ (files.map fileSegMeans).flatten := by
  induction files generalizing st with
  | nil => simp
  | cons f fs ih => simp [ih, overallProcessFile_cnv, List.append_assoc]

/-- Closed form of the per-stage processor's segment-mean accumulator. -/
theorem process_stage_cnv {α : Type} (samples : List (List (File α))) :
    (process_stage samples).cnv_segment_means
      = (samples.map (fun fs => (fs.map fileSegMeans).flatten)).flatten := by
  unfold process_stage
  suffices h : ∀ st : StageData α α,
      (samples.foldl (fun st files => files.foldl processFile st) st).cnv_segment_means
        = st.cnv_segment_means
          ++ (samples.map (fun fs => (fs.map fileSegMeans).flatten)).flatten by
    simpa using h { cnv_segment_means := [], snp_data := [] }
  induction samples with
  | nil => intro st; simp
  | cons fs rest ih =>
      intro st
      simp [foldl_processFile_cnv, ih, List.append_assoc]

/-- Closed form of the overall processor's segment-mean accumulator. -/
theorem overall_process_stage_cnv {α : Type} (stage_folder : String)
    (named : List (String × List (File α))) (st₀ : OverallStageData α) :
    (overall_process_stage stage_folder named st₀).cnv_segment_means
      = st₀.cnv_segment_means
        ++ ((named.map Prod.snd).map (fun fs => (fs.map fileSegMeans).flatten)).flatten := by
  unfold overall_process_stage
  induction named generalizing st₀ with
  | nil => simp
  | cons s rest ih =>
      simp [foldl_overallProcessFile_cnv, ih, List.append_assoc]

/-- The summed lengths of all per-file contributions equal the summed
sizes of the contributing files' resolved columns. -/
theorem length_contrib {α : Type} (files : List (File α)) :
    (files.map (fun f => (fileSegMeans f).length)).sum
      = ((files.filterMap fileSegMeansOpt).map List.length).sum := by
  induction files with
  | nil => rfl
  | cons f fs ih =>
      cases h : fileSegMeansOpt f with
      | none =>
          have hf : fileSegMeans f = [] := by simp [fileSegMeans, h]
          simp [List.filterMap_cons, h, hf, ih]
      | some vs =>
          have hf : fileSegMeans f = vs := by simp [fileSegMeans, h]
          simp [List.filterMap_cons, h, hf, ih]

/-- The multiset of accumulated segment-mean values is the sum of
per-sample multiset contributions. -/
theorem mset_process_stage {α : Type} (samples : List (List (File α))) :
    ((process_stage samples).cnv_segment_means : Multiset α)
      = (samples.map (fun fs =>
          (fs : Multiset (File α)).bind (fun f => (fileSegMeans f : Multiset α)))).sum := by
  rw [process_stage_cnv]
  induction samples with
  | nil => rfl
  | cons fs rest ih =>
      simp only [List.map_cons, List.flatten_cons, List.sum_cons, ← ih]
      rw [← Multiset.coe_add]
      congr 1
      show ((fs.map fileSegMeans).flatten : Multiset α)
          = (fs : Multiset (File α)).bind (fun f => (fileSegMeans f : Multiset α))
      rw [Multiset.coe_bind, List.flatMap_def]

end ESCC

namespace ESCC

/-- C2: for every table, `get_segment_mean_column` returns the first
column (in column order) whose lowercased name equals `segment_mean` or
`segmentmean`, and returns `None` exactly when no column name matches
those literals case-insensitively. -/
theorem c2_segment_mean_resolver (cols : List String) :
    get_segment_mean_column cols
      = cols.find? (fun c => pyLower c == "segment_mean" || pyLower c == "segmentmean")
    ∧ (get_segment_mean_column cols = none ↔
        ∀ c ∈ cols, ¬(pyLower c = pyLower "segment_mean" ∨ pyLower c = pyLower "segmentmean")) := by
  have hfind : get_segment_mean_column cols
      = cols.find? (fun c => pyLower c == "segment_mean" || pyLower c == "segmentmean") := by
    induction cols with
    | nil => rfl
    | cons c cs ih =>
        by_cases h : pyLower c = "segment_mean" ∨ pyLower c = "segmentmean"
        · rcases h with h | h <;>
            simp [get_segment_mean_column, segmentMeanNames, List.find?_cons, h]
        · push_neg at h
          simp [get_segment_mean_column, segmentMeanNames, List.find?_cons, h.1, h.2, ih]
  refine ⟨hfind, ?_⟩
  rw [hfind, pyLower_sm, pyLower_smn, List.find?_eq_none]
  simp [not_or]

/-- Witness for C2 at a concrete upper-case column listing. -/
theorem c2_segment_mean_resolver_witness :
    get_segment_mean_column ["Chromosome", "SEGMENT_MEAN"] = some "SEGMENT_MEAN" := by
  have h := (c2_segment_mean_resolver ["Chromosome", "SEGMENT_MEAN"]).1
  rw [h]
  decide

/-- C3: the per-stage exporter's sheet title `stage + "_" + name` is kept
unchanged when its length is at most 31 characters, and otherwise is
replaced by its first 28 characters followed by the marker `...`, a
result of exactly 31 characters. -/
theorem c3_sheet_title_truncation (stage sheet_name : String) :
    ((stage ++ "_" ++ sheet_name).length ≤ 31 →
        sheet_title stage sheet_name = stage ++ "_" ++ sheet_name)
  ∧ (31 < (stage ++ "_" ++ sheet_name).length →
        sheet_title stage sheet_name
          = pySlice (stage ++ "_" ++ sheet_name) 28 ++ "..."
        ∧ (sheet_title stage sheet_name).length = 31) := by
  constructor
  · intro h
    simp only [sheet_title]
    rw [if_neg (by omega)]
  · intro h
    simp only [sheet_title]
    rw [if_pos h]
    refine ⟨rfl, ?_⟩
    rw [String.length_append]
    have h1 : (pySlice (stage ++ "_" ++ sheet_name) 28).length
        = ((stage ++ "_" ++ sheet_name).data.take 28).length := rfl
    rw [List.length_take] at h1
    have h2 : ("..." : String).length = 3 := rfl
    have h3 : (stage ++ "_" ++ sheet_name).length
        = (stage ++ "_" ++ sheet_name).data.length := rfl
    omega

/-- Witness for C3 at a 35-character title and a short title. -/
theorem c3_sheet_title_truncation_witness :
    sheet_title "Stage_IVB" "Mutation_Classification_X"
      = pySlice ("Stage_IVB" ++ "_" ++ "Mutation_Classification_X") 28 ++ "..."
  ∧ (sheet_title "Stage_IVB" "Mutation_Classification_X").length = 31 :=
  (c3_sheet_title_truncation "Stage_IVB" "Mutation_Classification_X").2 (by decide)

/-- C5: `read_maf_file` hands the tab-delimited parser exactly the lines
that do not start with `#`; every `#`-line contributes nothing. -/
theorem c5_maf_comment_filtering (lines : List String) :
    mafKeptLines lines = lines.filter (fun l => !(pyStartsWith l "#"))
  ∧ read_maf_body (some lines)
      = pdReadCsvLines (lines.filter (fun l => !(pyStartsWith l "#")))
  ∧ (∀ l ∈ lines, pyStartsWith l "#" = true → l ∉ mafKeptLines lines) := by
  have hk : mafKeptLines lines = lines.filter (fun l => !(pyStartsWith l "#")) := by
    induction lines with
    | nil => rfl
    | cons l ls ih =>
        by_cases h : pyStartsWith l "#" <;>
          simp [mafKeptLines, List.filter_cons, h, ih]
  refine ⟨hk, by rw [read_maf_body, hk], ?_⟩
  intro l _ hstart hmem
  rw [hk] at hmem
  have := List.of_mem_filter hmem
  simp [hstart] at this

/-- Witness for C5: a concrete metadata line is dropped. -/
theorem c5_maf_comment_filtering_witness :
    "#version 2.4" ∉ mafKeptLines ["#version 2.4", "Hugo_Symbol\tVariant_Classification"] :=
  (c5_maf_comment_filtering ["#version 2.4", "Hugo_Symbol\tVariant_Classification"]).2.2
    "#version 2.4" (by decide) (by decide)

/-- C7: the readers are total — the caller observes exactly `None` on a
read/parse failure and `Some` table on success, mirroring the `try/except`
bodies; no other outcome exists. -/
theorem c7_reader_failure_signaling (content : Option (List String)) :
    (read_cnv_file content = none ↔ ∃ e, read_cnv_body content = Except.error e)
  ∧ (∀ t, read_cnv_file content = some t ↔ read_cnv_body content = Except.ok t)
  ∧ (read_maf_file content = none ↔ ∃ e, read_maf_body content = Except.error e)
  ∧ (∀ t, read_maf_file content = some t ↔ read_maf_body content = Except.ok t) := by
  refine ⟨?_, ?_, ?_, ?_⟩
  · cases h : read_cnv_body content <;> simp [read_cnv_file, h]
  · intro t; cases h : read_cnv_body content <;> simp [read_cnv_file, h]
  · cases h : read_maf_body content <;> simp [read_maf_file, h]
  · intro t; cases h : read_maf_body content <;> simp [read_maf_file, h]

/-- Witness for C7: a missing file yields `None` from both readers. -/
theorem c7_reader_failure_signaling_witness :
    read_cnv_file none = none ∧ read_maf_file none = none :=
  ⟨((c7_reader_failure_signaling none).1).mpr ⟨"FileNotFoundError", rfl⟩,
   ((c7_reader_failure_signaling none).2.2.1).mpr ⟨"FileNotFoundError", rfl⟩⟩

end ESCC

namespace ESCC

/-- C6: on a successfully read CNV file without a segment-mean column,
the overall variant appends exactly one `(file path, "Missing Segment
Mean column")` record to the failure log and changes nothing else, while
the per-stage variant leaves its whole state unchanged (silent skip). -/
theorem c6_missing_column_handling {α : Type} (sample_path sample_folder : String)
    (stO : OverallStageData α) (stP : StageData α α) (f : File α) (df : Table α)
    (hname : strContains f.name cnvTag = true)
    (hread : f.parsed = some df)
    (hcol : get_segment_mean_column df.cols = none) :
    overallProcessFile sample_path sample_folder stO f
      = { stO with failedLog :=
            stO.failedLog ++ [(pathJoin sample_path f.name, "Missing Segment Mean column")] }
  ∧ processFile stP f = stP := by
  constructor
  · simp [overallProcessFile, hname, hread, hcol, log_failed_file]
  · simp [processFile, hname, hread, hcol]

/-- Witness for C6 at a concrete file whose table has no matching column. -/
theorem c6_missing_column_handling_witness :
    overallProcessFile "base/I/S1" "S1" c6StateO c6File
      = { c6StateO with failedLog :=
            c6StateO.failedLog
              ++ [(pathJoin "base/I/S1" c6File.name, "Missing Segment Mean column")] }
  ∧ processFile c6StateP c6File = c6StateP :=
  c6_missing_column_handling "base/I/S1" "S1" c6StateO c6StateP c6File
    { columns := [("Chromosome", [1, 7])] } (by decide) rfl (by decide)

/-- C10: a file whose name contains `Copy_Number_Variation` is handled
exclusively by the CNV branch in both variants — even when its name also
contains `Simple_Nucleotide_Variation` or ends in `.maf` — so it never
contributes to the mutation-table accumulators. -/
theorem c10_cnv_classification_priority {α : Type} (sample_path sample_folder : String)
    (stO : OverallStageData α) (stP : StageData α α) (f : File α)
    (hname : strContains f.name cnvTag = true) :
    (processFile stP f).snp_data = stP.snp_data
  ∧ (overallProcessFile sample_path sample_folder stO f).snp_data = stO.snp_data
  ∧ (overallProcessFile sample_path sample_folder stO f).snp_data_by_sample
      = stO.snp_data_by_sample := by
  refine ⟨?_, ?_, ?_⟩ <;>
  · simp only [processFile, overallProcessFile, hname]
    cases hp : f.parsed with
    | none => simp
    | some df => cases hc : get_segment_mean_column df.cols <;> simp [hc]

/-- Witness for C10 at a file named with all three classification marks. -/
theorem c10_cnv_classification_priority_witness :
    (processFile c6StateP c10File).snp_data = c6StateP.snp_data
  ∧ (overallProcessFile "b/I/S" "S" c6StateO c10File).snp_data = c6StateO.snp_data
  ∧ (overallProcessFile "b/I/S" "S" c6StateO c10File).snp_data_by_sample
      = c6StateO.snp_data_by_sample :=
  c10_cnv_classification_priority "b/I/S" "S" c6StateO c6StateP c10File (by decide)

/-- C1 counterexample: on empty inputs the overall exporter writes zero
sheets, not the three fixed sheets the claim promises for every input. -/
theorem c1_sheet_names_counterexample :
    save_summary_to_excel [] [] = Except.ok []
  ∧ ¬ (∃ sheets, save_summary_to_excel [] [] = Except.ok sheets
        ∧ sheets.map Prod.fst
          = ["CNV_Segment_Stats", "Top_Mutated_Genes", "Mutation_Classification"]) := by
  refine ⟨rfl, ?_⟩
  rintro ⟨sheets, hs, hm⟩
  rw [show save_summary_to_excel [] []
      = Except.ok ([] : List (String × SheetContent)) from rfl] at hs
  cases hs
  simp at hm

/-- C1 (amended): every sheet the overall exporter writes is one of the
three fixed names; it writes exactly those three, in order, whenever the
merged segment-mean list is non-empty and the sample-keyed mapping
carries at least one table; with an empty segment-mean list the CNV
sheet is omitted, and with an empty mapping the two mutation sheets are
omitted. -/
theorem c1_overall_sheet_names (cnv : List ℚ) (snp : List (String × List (Table String))) :
    (∀ sheets, save_summary_to_excel cnv snp = Except.ok sheets →
        sheets.map Prod.fst
          ⊆ ["CNV_Segment_Stats", "Top_Mutated_Genes", "Mutation_Classification"])
  ∧ (cnv ≠ [] → (snp.map Prod.snd).flatten ≠ [] →
      (save_summary_to_excel cnv snp).map (List.map Prod.fst)
        = Except.ok ["CNV_Segment_Stats", "Top_Mutated_Genes", "Mutation_Classification"])
  ∧ (cnv = [] → ∀ sheets, save_summary_to_excel cnv snp = Except.ok sheets →
      "CNV_Segment_Stats" ∉ sheets.map Prod.fst)
  ∧ (snp = [] → ∀ sheets, save_summary_to_excel cnv snp = Except.ok sheets →
      "Top_Mutated_Genes" ∉ sheets.map Prod.fst
      ∧ "Mutation_Classification" ∉ sheets.map Prod.fst) := by
  refine ⟨?_, ?_, ?_, ?_⟩
  · intro sheets hs
    by_cases hc : cnv.isEmpty <;> by_cases hp : snp.isEmpty <;>
      by_cases hd : ((snp.map Prod.snd).flatten).isEmpty <;>
        simp [save_summary_to_excel, hc, hp, hd] at hs <;>
          (subst hs; simp [List.subset_def])
  · intro hc hd
    have hp : snp ≠ [] := by
      intro h
      subst h
      simp at hd
    simp [save_summary_to_excel, List.isEmpty_iff, hc, hp, hd, Except.map]
  · intro hc sheets hs
    subst hc
    by_cases hp : snp.isEmpty <;>
      by_cases hd : ((snp.map Prod.snd).flatten).isEmpty <;>
        simp [save_summary_to_excel, hp, hd] at hs <;> (subst hs; simp)
  · intro hp sheets hs
    subst hp
    by_cases hc : cnv.isEmpty <;> simp [save_summary_to_excel, hc] at hs <;>
      (subst hs; simp)

/-- Witness for C1: the three-sheet case at one value and one
sample-keyed table, the CNV-sheet omission at an empty value list, and
the mutation-sheet omissions at an empty mapping. -/
theorem c1_overall_sheet_names_witness :
    ((save_summary_to_excel [1] [("S1", [c1ExampleTable])]).map (List.map Prod.fst)
        = Except.ok ["CNV_Segment_Stats", "Top_Mutated_Genes", "Mutation_Classification"])
  ∧ "CNV_Segment_Stats"
      ∉ ([("Top_Mutated_Genes", SheetContent.counts (topGenesOf [c1ExampleTable])),
          ("Mutation_Classification",
           SheetContent.counts
             (valueCounts (combinedCol [c1ExampleTable] variantClassification)))].map Prod.fst)
  ∧ "Top_Mutated_Genes"
      ∉ ([("CNV_Segment_Stats", SheetContent.stats (describeStats [1]))].map Prod.fst)
  ∧ "Mutation_Classification"
      ∉ ([("CNV_Segment_Stats", SheetContent.stats (describeStats [1]))].map Prod.fst) :=
  ⟨(c1_overall_sheet_names [1] [("S1", [c1ExampleTable])]).2.1 (by decide) (by decide),
   (c1_overall_sheet_names [] [("S1", [c1ExampleTable])]).2.2.1 rfl _ rfl,
   ((c1_overall_sheet_names [1] []).2.2.2 rfl _ rfl).1,
   ((c1_overall_sheet_names [1] []).2.2.2 rfl _ rfl).2⟩

/-- C9: `create_stage_summary` on segment-mean values `[1,2,3,4,5]`
reports count 5, mean 3, minimum 1, maximum 5 and median 3 (with sample
variance 5/2, whose square root the code prints as std, and quartiles 2
and 4). -/
theorem c9_describe_example :
    (create_stage_summary { cnv_segment_means := [1, 2, 3, 4, 5], snp_data := [] }).cnvStats
      = some { count := 5, mean := 3, sampleVariance := some (5/2),
               min := 1, q25 := 2, q50 := 3, q75 := 4, max := 5 } := by
  have hsort : List.insertionSort (· ≤ ·) ([1, 2, 3, 4, 5] : List ℚ) = [1, 2, 3, 4, 5] := by
    norm_num [List.insertionSort, List.orderedInsert]
  simp only [create_stage_summary, describeStats, hsort]
  norm_num [quantileSorted, List.getD, List.getLast, List.sum_cons, Int.toNat,
    List.getElem_cons_succ, List.getElem_cons_zero]

/-- C8: the Top_Mutated_Genes summary of a non-empty table collection is
the gene/count grouping of all concatenated rows, holds at most 10
entries in descending count order (so a strictly higher count always
precedes a lower one), and on counts TP53:5, KRAS:3, EGFR:3 its top-2
prefix lists TP53 first. -/
theorem c8_top_mutated_genes (tables : List (Table String)) (sd : StageData ℚ String)
    (hsd : sd.snp_data ≠ []) :
    (create_stage_summary sd).topGenes = some (topGenesOf sd.snp_data)
  ∧ (topGenesOf tables).length ≤ 10
  ∧ List.Pairwise (fun a b : String × ℕ => b.2 ≤ a.2) (topGenesOf tables)
  ∧ (∀ p ∈ topGenesOf tables, p.2 = (combinedCol tables hugoSymbol).count p.1)
  ∧ ((topGenesOf [c8ExampleTable]).take 2).head? = some ("TP53", 5) := by
  refine ⟨?_, ?_, ?_, ?_, ?_⟩
  · simp [create_stage_summary, List.isEmpty_iff, hsd]
  · exact List.length_take_le 10 (valueCounts (combinedCol tables hugoSymbol))
  · have hs : List.Pairwise countGE (valueCounts (combinedCol tables hugoSymbol)) :=
      List.sorted_insertionSort countGE
        ((firstSeenKeys (combinedCol tables hugoSymbol)).map
          (fun k => (k, (combinedCol tables hugoSymbol).count k)))
    exact List.Pairwise.sublist (List.take_sublist 10 _) hs
  · intro p hp
    have h1 : p ∈ valueCounts (combinedCol tables hugoSymbol) :=
      List.mem_of_mem_take (by simpa [topGenesOf] using hp)
    simp only [valueCounts, List.mem_insertionSort, List.mem_map] at h1
    obtain ⟨k, hk, rfl⟩ := h1
    rfl
  · decide

/-- Witness for C8 at a stage holding one mutation table. -/
theorem c8_top_mutated_genes_witness :
    (create_stage_summary c8SampleStage).topGenes = some (topGenesOf c8SampleStage.snp_data) :=
  (c8_top_mutated_genes [] c8SampleStage (by decide)).1

/-- C4: the stage-wide segment-mean sequence has length equal to the sum
of the sizes `k₁..kₙ` of the resolved columns of the successfully read
CNV files; its multiset of values is invariant under any reordering of
samples and of files within samples; and the overall variant accumulates
exactly the same stage-wide sequence. -/
theorem c4_stage_accumulation {α : Type} (samples samples₂ : List (List (File α)))
    (stage_folder : String) (named : List (String × List (File α)))
    (st₀ : OverallStageData α) :
    (process_stage samples).cnv_segment_means.length
      = ((samples.flatten.filterMap fileSegMeansOpt).map List.length).sum
  ∧ (List.Perm (samples.map (fun fs => (fs : Multiset (File α))))
        (samples₂.map (fun fs => (fs : Multiset (File α)))) →
      ((process_stage samples).cnv_segment_means : Multiset α)
        = ((process_stage samples₂).cnv_segment_means : Multiset α))
  ∧ (overall_process_stage stage_folder named st₀).cnv_segment_means
      = st₀.cnv_segment_means ++ (process_stage (named.map Prod.snd)).cnv_segment_means := by
  refine ⟨?_, ?_, ?_⟩
  · rw [process_stage_cnv]
    induction samples with
    | nil => rfl
    | cons fs rest ih =>
        simp [List.filterMap_append, Function.comp_def, length_contrib, ih]
  · intro h
    rw [mset_process_stage, mset_process_stage]
    have h2 := h.map
      (fun m : Multiset (File α) => m.bind (fun f => (fileSegMeans f : Multiset α)))
    have h3 : List.Perm (samples.map (fun fs =>
          (fs : Multiset (File α)).bind (fun f => (fileSegMeans f : Multiset α))))
        (samples₂.map (fun fs =>
          (fs : Multiset (File α)).bind (fun f => (fileSegMeans f : Multiset α)))) := by
      simpa [List.map_map] using h2
    exact h3.sum_eq
  · rw [overall_process_stage_cnv, process_stage_cnv]

/-- Witness for C4: swapping two one-file samples leaves the multiset of
accumulated values unchanged. -/
theorem c4_stage_accumulation_witness :
    ((process_stage [[c4FileA], [c4FileB]]).cnv_segment_means : Multiset ℕ)
      = ((process_stage [[c4FileB], [c4FileA]]).cnv_segment_means : Multiset ℕ) :=
  (c4_stage_accumulation [[c4FileA], [c4FileB]] [[c4FileB], [c4FileA]] "" []
      { cnv_segment_means := [], snp_data := [], cnv_segment_means_by_sample := [],
        snp_data_by_sample := [], failedLog := [] }).2.1
    (by exact List.Perm.swap _ _ _)

end ESCC
